import Mathlib

/-!
Shallow embedding of the trident client library (pydent) in Lean 4, together
with theorems settling the specification claims about it.

Python strings that the code computes over character-by-character are modelled
as `List Char` (`PyStr`); strings used only as opaque identifiers are Lean
`String`s.  Python `None`-able attributes are `Option`s; a `none` stored in a
field whose Python counterpart is only conditionally assigned models the
attribute being absent.  Exceptions are modelled with `Except`.
-/

namespace Trident

/-- Python strings, modelled as character lists so that all operations reduce
in the kernel. -/
abbrev PyStr := List Char

/-- Python `str.split(sep)` for a single-character separator: always returns at
least one (possibly empty) piece. -/
def pySplit (sep : Char) : PyStr → List PyStr
  | [] => [[]]
  | c :: rest =>
    let r := pySplit sep rest
    if c = sep then [] :: r
    else
      match r with
      | [] => [[c]]
      | p :: ps => (c :: p) :: ps

/-- Python `re.match(pat, s)` for a pattern made only of literal characters:
an anchored match at the start of the string, i.e. a prefix test. -/
def reMatchLit (pat : PyStr) (s : PyStr) : Bool :=
  pat.isPrefixOf s

/-- Python `needle in hay` for strings: substring test. -/
def pyStrContains (needle : PyStr) : PyStr → Bool
  | [] => needle.isEmpty
  | c :: rest => needle.isPrefixOf (c :: rest) || pyStrContains needle rest

/-- JSON values, as produced by `response.json()`. -/
inductive Json where
  | null
  | jbool (b : Bool)
  | num (n : Int)
  | str (s : String)
  | arr (xs : List Json)
  | obj (kvs : List (String × Json))

/-- Structural equality of JSON values (Python `==` on parsed JSON data). -/
def Json.beq : Json → Json → Bool
  | .null, .null => true
  | .jbool a, .jbool b => a == b
  | .num a, .num b => a == b
  | .str a, .str b => a == b
  | .arr xs, .arr ys =>
    let rec beqList : List Json → List Json → Bool
      | [], [] => true
      | x :: xs, y :: ys => Json.beq x y && beqList xs ys
      | _, _ => false
    beqList xs ys
  | .obj xs, .obj ys =>
    let rec beqKVList : List (String × Json) → List (String × Json) → Bool
      | [], [] => true
      | x :: xs, y :: ys => (x.1 == y.1 && Json.beq x.2 y.2) && beqKVList xs ys
      | _, _ => false
    beqKVList xs ys
  | _, _ => false

/-- Test for the JSON `null` value. -/
def Json.isNull : Json → Bool
  | .null => true
  | _ => false

/-- Python `key in result_json` on a parsed JSON value: key membership for a
dict, element membership for a list, substring test for a string.  (On a
number, boolean or `None`, Python raises `TypeError`; no Aquarium response
body handled by the claims has such a shape, and the model returns `false`
there.) -/
def pyInJson (key : String) : Json → Bool
  | .obj kvs => kvs.any (fun kv => kv.1 == key)
  | .arr xs =>
    xs.any (fun x =>
      match x with
      | .str s => s == key
      | _ => false)
  | .str s => pyStrContains key.data s.data
  | _ => false

/-! ## Transport: `pydent/aqhttp.py` -/

/-- Typed exceptions of `pydent.exceptions` raised by the transport, plus a
constructor for errors Python itself would raise (`TypeError`,
`AttributeError`, `IndexError`). -/
inductive TridentExc where
  | requestError (msg : String)
  | loginError (msg : String)
  | timeoutError (msg : String)
  | jsonDataIncomplete (msg : String)
  | pyError (msg : String)
deriving DecidableEq

/-- Result of one HTTP exchange, as seen by `_request_to_json`:
`parsed = some j` when `result.json()` succeeds with value `j`, `none` when
the body is not parseable as JSON (`json.JSONDecodeError`). -/
structure HttpResultR where
  parsed : Option Json
  status_code : Nat
  reason : String
  request_body : String

/-- State of an `AqHTTP` instance: base url and the request history.  The
history is an association list; a fresh entry is consed on the front, so a
front-first lookup realizes Python dict overwrite semantics.  The key is the
`(url, method, body)` triple serialized by `_serialize_request` (two triples
collide exactly when their serializations do; the model compares the triples
structurally). -/
structure AqHTTPR where
  aquarium_url : String
  request_history : List ((String × String × Json) × HttpResultR)

/-- Equality of request-history keys. -/
def keyBeq (k1 k2 : String × String × Json) : Bool :=
  k1.1 == k2.1 && k1.2.1 == k2.2.1 && Json.beq k1.2.2 k2.2.2

/-- Lookup in the request history (`self.request_history.get(key, None)`). -/
def histLookup (h : List ((String × String × Json) × HttpResultR))
    (k : String × String × Json) : Option HttpResultR :=
  (h.find? (fun e => keyBeq e.1 k)).map (fun e => e.2)

/-- Test whether `pre` is a prefix of `s`. -/
def strStartsWith (pre s : String) : Bool := pre.data.isPrefixOf s.data

/-- Test whether `suf` is a suffix of `s`. -/
def strEndsWith (suf s : String) : Bool := suf.data.reverse.isPrefixOf s.data.reverse

/-- Python `os.path.join(a, b)` for URL paths (posix semantics, as used on the
Aquarium base url). -/
def pyPathJoin (a b : String) : String :=
  if strStartsWith "/" b then b
  else if a = "" then b
  else if strEndsWith "/" a then a ++ b
  else a ++ "/" ++ b

/-- `AqHTTP._request_to_json`: parse the response as JSON; a non-JSON body or
a body containing an `errors` key raises `TridentRequestError`.  (The Python
messages interpolate the status code and the error payload; the model keeps
fixed descriptive messages.) -/
def request_to_json (result : HttpResultR) : Except TridentExc Json :=
  match result.parsed with
  | none => .error (.requestError "Response is not JSON formatted.")
  | some j =>
    if pyInJson "errors" j then .error (.requestError "error-flagged response")
    else .ok j

/-- `AqHTTP._disallow_null_in_json`: raises `TridentJSONDataIncomplete` when
the JSON body has a top-level `null` value (`None in json_data.values()`).
A non-dict body would make Python raise `AttributeError` on `.values()`. -/
def disallow_null_in_json : Json → Except TridentExc Unit
  | .obj kvs =>
    if kvs.any (fun kv => kv.2.isNull) then
      .error (.jsonDataIncomplete "JSON data contains a null value.")
    else .ok ()
  | _ => .error (.pyError "values called on non-dict JSON data")

/-- Body of `AqHTTP.request` after the null check: compute the key, consult
the history when `get_from_history_ok`, otherwise perform the HTTP exchange
(the `server` oracle maps method, url, body to the response of this one
execution) and store the result in the history; finally parse with
`_request_to_json`.  The returned `Nat` counts the HTTP calls performed. -/
def requestCore (server : String → String → Json → HttpResultR)
    (self : AqHTTPR) (method path : String) (jsonArg : Option Json)
    (get_from_history_ok : Bool) : AqHTTPR × Nat × Except TridentExc Json :=
  let url := pyPathJoin self.aquarium_url path
  let body := jsonArg.getD (Json.obj [])
  let key := (url, method, body)
  let cached := if get_from_history_ok then histLookup self.request_history key else none
  match cached with
  | some result => (self, 0, request_to_json result)
  | none =>
    let result := server method url body
    ({ self with request_history := (key, result) :: self.request_history },
     1, request_to_json result)

/-- `AqHTTP.request`: when a JSON body is supplied it is first checked by
`_disallow_null_in_json`; the exception propagates before any HTTP request is
issued and before the history is touched. -/
def requestStep (server : String → String → Json → HttpResultR)
    (self : AqHTTPR) (method path : String) (jsonArg : Option Json)
    (get_from_history_ok : Bool) : AqHTTPR × Nat × Except TridentExc Json :=
  match jsonArg with
  | some j =>
    match disallow_null_in_json j with
    | .error e => (self, 0, .error e)
    | .ok _ => requestCore server self method path jsonArg get_from_history_ok
  | none => requestCore server self method path jsonArg get_from_history_ok

/-- `AqHTTP.fix_remember_token`: split the set-cookie header on `;`, split
each part on `=`, remember the value of every part whose key matches (i.e.
begins with) `remember_token`, and prepend `remember_token=<value>; ` to the
header.  A matching part without `=` makes Python raise `IndexError` on
`cparts[1]`, modelled by `none`. -/
def fix_remember_token (header : PyStr) : Option PyStr :=
  let rec loop : List PyStr → PyStr → Option PyStr
    | [], rtok => some rtok
    | part :: rest, rtok =>
      let cparts := pySplit '=' part
      if reMatchLit "remember_token".data (cparts.headD []) then
        match cparts.get? 1 with
        | none => none
        | some v => loop rest v
      else loop rest rtok
  (loop (pySplit ';' header) []).map
    (fun rtok => "remember_token=".data ++ rtok ++ "; ".data ++ header)

/-- The `=`-splits of the given parts whose key matches `remember_token`. -/
def tokenCpartsOf : List PyStr → List (List PyStr)
  | [] => []
  | p :: rest =>
    if reMatchLit "remember_token".data ((pySplit '=' p).headD []) then
      pySplit '=' p :: tokenCpartsOf rest
    else tokenCpartsOf rest

/-- Claim-side description of the token search: the `=`-splits of the
`;`-separated parts of the header whose key matches `remember_token`. -/
def rememberTokenParts (header : PyStr) : List (List PyStr) :=
  tokenCpartsOf (pySplit ';' header)

/-- Claim-side description of the extracted token: the value of the last
matching part ( `[]` when no part matches). -/
def lastRememberTokenValue (header : PyStr) : PyStr :=
  match (rememberTokenParts header).getLast? with
  | none => []
  | some cp => (cp.get? 1).getD []

/-! ## Parallel fetch helper: `pydent/utils/async_requests.py` -/

/-- Auxiliary recursion for `chunkify`: peel off `n` elements at a time,
with an explicit fuel (structural recursion, so that concrete inputs reduce
in the kernel).  `(x :: xs).drop n = xs.drop (n - 1)` for `n ≥ 1`, the only
regime in which this function is reached, and each step consumes at least one
element, so `fuel = length` never runs out. -/
def chunkifyFuel (n : Nat) : Nat → List α → List (List α)
  | 0, _ => []
  | _, [] => []
  | fuel + 1, x :: xs => ((x :: xs).take n) :: chunkifyFuel n fuel (xs.drop (n - 1))

/-- Chunking loop of `chunkify`. -/
def chunkifyGo (n : Nat) (l : List α) : List (List α) :=
  chunkifyFuel n l.length l

/-- `chunkify(list, n)`: `[l[i:i+n] for i in range(0, len(l), n)]`.  Python
`range` with step `0` raises `ValueError`, modelled by `none`. -/
def chunkify (l : List α) (n : Nat) : Option (List (List α)) :=
  if n = 0 then none else some (chunkifyGo n l)

/-- `exec_async_fxn`: the futures `[fxn(arg) for arg in args]` are submitted in
input order, but `asyncio.as_completed` yields them in completion order and the
result list appends each awaited value in that order.  `completed` is the
completion order: a permutation of `args` (hypothesized in the theorems); the
result is the function applied along that order. -/
def exec_async_fxn (f : α → β) (completed : List α) : List β :=
  completed.map f

/-- `asyncfunc`: runs the event loop until `exec_async_fxn` finishes. -/
def asyncfunc (f : α → β) (completed : List α) : List β :=
  exec_async_fxn f completed

/-- Wrapper produced by the `make_async(chunk_size)` decorator: chunk the data,
fan the function over the chunks with `asyncfunc`, and chain the chunk results
into one flat list.  `completed` is the completion order of the chunk futures
(a permutation of `chunkify data chunk_size`, hypothesized in the theorems). -/
def make_async_run (chunk_size : Nat) (f : List α → List β) (data : List α)
    (completed : List (List α)) : Option (List β) :=
  (chunkify data chunk_size).map (fun _chunks => (asyncfunc f completed).flatten)

/-! ## Relationship resolution cache -/

/-- Cache slot of one relationship descriptor on one record instance, plus a
counter of the remote lookups issued for it. -/
structure RelationCacheSlot (β : Type) where
  cached : Option β
  remoteLookups : Nat
deriving DecidableEq

/-- Modelled from the spec: the attribute interception that resolves `Relation`
fields (`HasOne` of `pydent/relationships.py`) lives in `pydent/base.py` and the
marshaller schema machinery, which are not under src/.  Spec section 4.1 and the
invariants: resolution invokes the session-bound find and caches the result on
the descriptor cache slot for that instance; results are resolved at most once
per record instance, and subsequent accesses return the cached value even if
server state changes.  `fetch` maps the current server state to the fetched
value; an access with an empty cache slot performs one remote lookup. -/
def accessRelation (fetch : Nat → β) (serverState : Nat) (slot : RelationCacheSlot β) :
    β × RelationCacheSlot β :=
  match slot.cached with
  | some v => (v, slot)
  | none =>
    let v := fetch serverState
    (v, { cached := some v, remoteLookups := slot.remoteLookups + 1 })

/-! ## Model layer: `pydent/models.py` -/

/-- Errors of the model layer: `AquariumModelError` raised by the models, plus
a constructor for errors Python itself would raise on `None` access
(`AttributeError`, `TypeError`). -/
inductive ModelErr where
  | aquariumModelError (msg : String)
  | pyError (msg : String)
deriving DecidableEq

/-- An `ObjectType` (container type), restricted to the attributes the claims
touch. -/
structure ObjectTypeR where
  id : Option Int
deriving DecidableEq

/-- A `Sample`, restricted to the attributes the claims touch. -/
structure SampleR where
  id : Option Int
  sample_type_id : Option Int
deriving DecidableEq

/-- An `AllowableFieldType` row: pairs a sample type and a container (object)
type valid for a given field type. -/
structure AllowableFieldTypeR where
  id : Option Int
  sample_type_id : Option Int
  object_type_id : Option Int
deriving DecidableEq

/-- An `Item`: a physical instance of a Sample housed in a container.  The
`object_type` and `sample` fields model the locally materialized nested
records. -/
structure ItemR where
  id : Option Int
  object_type_id : Option Int
  object_type : Option ObjectTypeR
  sample : Option SampleR
deriving DecidableEq

/-- A `FieldType`, restricted to the attributes set by its constructor that the
claims touch (`choices` and the `preferred_*` ids are carried by the source but
dead for every claim). -/
structure FieldTypeR where
  id : Option Int
  name : Option String
  role : Option String
  ftype : Option String
  array : Option Bool
  required : Option Bool
  routing : Option String
  parent_id : Option Int
  parent_class : Option String
  allowable_field_types : Option (List AllowableFieldTypeR)
deriving DecidableEq

/-- A `FieldValue`, with the attributes assigned by `FieldValue.__init__`.
The `operation` back-reference (a raw object pointer set by `set_operation`)
is represented only through `parent_class`/`parent_id`. -/
structure FieldValueR where
  id : Option Int
  name : Option String
  role : Option String
  column : Option Int
  row : Option Int
  parent_class : Option String
  parent_id : Option Int
  field_type : Option FieldTypeR
  field_type_id : Option Int
  allowable_field_type : Option AllowableFieldTypeR
  allowable_field_type_id : Option Int
  value : Option String
  sample : Option SampleR
  child_sample_id : Option Int
  item : Option ItemR
  child_item_id : Option Int
  object_type : Option ObjectTypeR
deriving DecidableEq

/-- Modelled from the spec: `pydent.utils.filter_list` is not under src/.  Per
the spec, the allowable field types "are filtered by the sample's
sample_type_id and the object type's id": the helper keeps the list elements
whose named attribute equals the given keyword value. -/
def filter_by_sample_type_id (afts : List AllowableFieldTypeR) (v : Option Int) :
    List AllowableFieldTypeR :=
  afts.filter (fun a => a.sample_type_id == v)

/-- Modelled from the spec: `pydent.utils.filter_list` keyed on
`object_type_id` (see `filter_by_sample_type_id`). -/
def filter_by_object_type_id (afts : List AllowableFieldTypeR) (v : Option Int) :
    List AllowableFieldTypeR :=
  afts.filter (fun a => a.object_type_id == v)

/-- `FieldValue.set_field_type`: sets `field_type` and `field_type_id`. -/
def set_field_type (fv : FieldValueR) (ft : FieldTypeR) : FieldValueR :=
  { fv with field_type := some ft, field_type_id := ft.id }

/-- `FieldValue.set_allowable_field_type`: sets `allowable_field_type` and
`allowable_field_type_id`. -/
def set_allowable_field_type (fv : FieldValueR) (aft : AllowableFieldTypeR) : FieldValueR :=
  { fv with allowable_field_type := some aft, allowable_field_type_id := aft.id }

/-- `FieldValue.set_operation`: marks the field value as parented by the given
operation (`parent_class = "Operation"`, `parent_id = operation.id`; the raw
object back-reference is outside the modelled state). -/
def set_operation (fv : FieldValueR) (operationId : Option Int) : FieldValueR :=
  { fv with parent_class := some "Operation", parent_id := operationId }

/-- `FieldValue._set_helper`: raises `AquariumModelError` when an item and a
container disagree on the object type; otherwise assigns value, item (with its
object type, and its sample when no sample was given), sample, and container.
Presence of an argument models Python truthiness (the model instances passed
here are always truthy). -/
def set_helper (fv0 : FieldValueR) (value : Option String) (sample : Option SampleR)
    (container : Option ObjectTypeR) (item : Option ItemR) :
    Except ModelErr FieldValueR :=
  let conflict :=
    match item, container with
    | some it, some ct => !(it.object_type_id == ct.id)
    | _, _ => false
  if conflict then
    .error (.aquariumModelError "Item is not in container")
  else
    let fv1 := match value with
      | some v => { fv0 with value := some v }
      | none => fv0
    let fv2 := match item with
      | some it =>
        { fv1 with item := some it, child_item_id := it.id, object_type := it.object_type }
      | none => fv1
    let sample1 := match item with
      | some it => match sample with
        | some s => some s
        | none => it.sample
      | none => sample
    let fv3 := match sample1 with
      | some s => { fv2 with sample := some s, child_sample_id := s.id }
      | none => fv2
    let fv4 := match container with
      | some c => { fv3 with object_type := some c }
      | none => fv3
    .ok fv4

/-- `FieldValue.set_value`: runs `_set_helper`, then, when a sample, container
or item was passed, filters the field type's allowable field types by the
(possibly item-derived) sample's `sample_type_id` and the object type's id;
an empty filter result raises `AquariumModelError`, more than one match emits a
non-fatal warning (the returned Bool) and assigns nothing, exactly one match is
assigned via `set_allowable_field_type`.  Accessing `allowable_field_types`
through a `None` field type, or filtering a `None` list, is a Python-level
error. -/
def set_value (fv0 : FieldValueR) (value : Option String) (sample : Option SampleR)
    (container : Option ObjectTypeR) (item : Option ItemR) :
    Except ModelErr (FieldValueR × Bool) := do
  let fv ← set_helper fv0 value sample container item
  if sample.isSome || container.isSome || item.isSome then
    match fv.field_type with
    | none => .error (.pyError "NoneType has no attribute allowable_field_types")
    | some ft =>
      match ft.allowable_field_types with
      | none => .error (.pyError "filter_list iterated a NoneType")
      | some afts0 =>
        let afts1 := match fv.sample with
          | some s => filter_by_sample_type_id afts0 s.sample_type_id
          | none => afts0
        let afts2 := match fv.object_type with
          | some ot => filter_by_object_type_id afts1 ot.id
          | none => afts1
        if afts2.isEmpty then
          .error (.aquariumModelError "No allowable field types found")
        else if 1 < afts2.length then
          .ok (fv, true)
        else
          match afts2 with
          | [a] => .ok (set_allowable_field_type fv a, false)
          | _ => .error (.aquariumModelError "No allowable field type found")
  else
    .ok (fv, false)

/-- Claim-side description of the matching allowable field types: those that
agree with the field value's sample on `sample_type_id` and with its object
type on `object_type_id` (no constraint when the respective attribute is
unset). -/
def matchingAFTs (fv : FieldValueR) (afts : List AllowableFieldTypeR) :
    List AllowableFieldTypeR :=
  afts.filter (fun a =>
    (match fv.sample with
     | some s => a.sample_type_id == s.sample_type_id
     | none => true) &&
    (match fv.object_type with
     | some ot => a.object_type_id == ot.id
     | none => true))

/-- `FieldValue.__init__`: all attributes start unset, the field type (when
given) is absorbed via `set_field_type`, and when any of value, sample, item,
container is given `_set_helper` runs. -/
def fieldValueInit (name role parent_class : Option String) (parent_id : Option Int)
    (field_type : Option FieldTypeR) (sample : Option SampleR) (value : Option String)
    (item : Option ItemR) (container : Option ObjectTypeR) :
    Except ModelErr FieldValueR :=
  let fv : FieldValueR :=
    { id := none, name := name, role := role, column := none, row := none,
      parent_class := parent_class, parent_id := parent_id,
      field_type := none, field_type_id := none,
      allowable_field_type := none, allowable_field_type_id := none,
      value := none, sample := none, child_sample_id := none,
      item := none, child_item_id := none, object_type := none }
  let fv := match field_type with
    | some ft => set_field_type fv ft
    | none => fv
  if value.isSome || sample.isSome || item.isSome || container.isSome then
    set_helper fv value sample container item
  else
    .ok fv

/-- `FieldType.initialize_field_value`: create a fresh `FieldValue` from the
field type when none is given (name and role copied, field type absorbed —
the source signature takes no parent argument), then copy the first allowable
field type onto it when the field type has any. -/
def initialize_field_value (ft : FieldTypeR) (field_value : Option FieldValueR) :
    Except ModelErr FieldValueR := do
  let fv ← match field_value with
    | none => fieldValueInit ft.name ft.role none none (some ft) none none none none
    | some fv => .ok fv
  match ft.allowable_field_types with
  | some (a :: _) =>
    .ok { fv with allowable_field_type_id := a.id, allowable_field_type := some a }
  | _ => .ok fv

/-- An `OperationType`, restricted to the attributes the claims touch. -/
structure OperationTypeR where
  id : Option Int
  name : Option String
  field_types : Option (List FieldTypeR)
deriving DecidableEq

/-- An `Operation`, with the attributes assigned by `Operation.__init__`.
`status = none` models the `status` attribute not having been set by the
constructor. -/
structure OperationR where
  operation_type_id : Option Int
  x : Option Int
  y : Option Int
  parent : Int
  id : Option Int
  status : Option String
  field_values : Option (List FieldValueR)
  operation_type : Option OperationTypeR
deriving DecidableEq

/-- `Operation.__init__`: `self.status` is assigned (to `"planning"`) only when
the `status` argument is `None`; a non-`None` argument is discarded and the
attribute stays unset. -/
def operationInit (operation_type_id : Option Int) (status : Option String)
    (x y : Option Int) : OperationR :=
  { operation_type_id := operation_type_id, x := x, y := y, parent := 0, id := none,
    status := match status with
      | none => some "planning"
      | some _ => none,
    field_values := none, operation_type := none }

/-- Modelled from the spec: `pydent.utils.filter_list` keyed on `name` and
`role` (see `filter_by_sample_type_id`), as used by `Operation.field_value`
and `OperationType.field_type`. -/
def filter_by_name_role (l : List FieldValueR) (name role : Option String) :
    List FieldValueR :=
  l.filter (fun fv => fv.name == name && fv.role == role)

/-- Modelled from the spec: `pydent.utils.filter_list` keyed on `role` and
`name` over field types. -/
def filter_ft_by_role_name (l : List FieldTypeR) (role name : Option String) :
    List FieldTypeR :=
  l.filter (fun ft => ft.role == role && ft.name == name)

/-- `OperationType.field_type(name, role)`: first field type matching name and
role, `None` when the list is absent, empty or without a match. -/
def operationTypeFieldType (ot : OperationTypeR) (name role : Option String) :
    Option FieldTypeR :=
  match ot.field_types with
  | none => none
  | some fts => (filter_ft_by_role_name fts role name).head?

/-- `Operation.field_value(name, role)`: the single field value matching name
and role together with its position in the list, `none` when there is no
match (or no list), `AquariumModelError` when the match is ambiguous. -/
def operationFieldValue (op : OperationR) (name role : Option String) :
    Except ModelErr (Option (Nat × FieldValueR)) :=
  match op.field_values with
  | none => .ok none
  | some fvs =>
    match filter_by_name_role fvs name role with
    | [] => .ok none
    | [fv] => .ok (some (fvs.findIdx (fun v => v.name == name && v.role == role), fv))
    | _ => .error (.aquariumModelError "More than one FieldValue found")

/-- `Operation.add_to_field_value_array(name, role)` as called by
`init_field_values` (no sample, item, value or container): initialize a fresh
field value from the field type and append it.  A missing field type makes
Python fail on `None.initialize_field_value`. -/
def addToFieldValueArrayNil (op : OperationR) (name role : Option String) :
    Except ModelErr OperationR := do
  match operationTypeFieldType (op.operation_type.getD ⟨none, none, none⟩) name role with
  | none => .error (.pyError "NoneType has no attribute initialize_field_value")
  | some ft =>
    let fv ← initialize_field_value ft none
    let r ← set_value fv none none none none
    .ok { op with field_values := some ((op.field_values.getD []) ++ [r.1]) }

/-- `Operation.set_field_value(name, role)` as called by `init_field_values`
(no sample, item, value or container): look up the field value and the field
type, raise on a missing or array field type, create-and-append a fresh field
value (parented to the operation) when none exists, then run `set_value` with
all arguments `None` (in Python the object is mutated in place; the model
writes the result back to its position). -/
def setFieldValueNil (op : OperationR) (name role : Option String) :
    Except ModelErr OperationR := do
  let existing ← operationFieldValue op name role
  match operationTypeFieldType (op.operation_type.getD ⟨none, none, none⟩) name role with
  | none => .error (.aquariumModelError "No FieldType found for OperationType")
  | some ft =>
    if ft.array = some true then
      .error (.aquariumModelError "FieldValue is an array")
    else
      match existing with
      | none => do
        let fv ← initialize_field_value ft none
        let fv := set_operation fv op.id
        let r ← set_value fv none none none none
        .ok { op with field_values := some ((op.field_values.getD []) ++ [r.1]) }
      | some (i, fv) => do
        let r ← set_value fv none none none none
        .ok { op with field_values := some ((op.field_values.getD []).set i r.1) }

/-- `Operation.init_field_values`: for each field type of the operation type,
add an array member or set the scalar field value.  Iterating a `None`
`field_types` is a Python-level error. -/
def initFieldValues (op : OperationR) : Except ModelErr OperationR :=
  match op.operation_type with
  | none => .error (.pyError "NoneType has no attribute field_types")
  | some ot =>
    match ot.field_types with
    | none => .error (.pyError "NoneType is not iterable")
    | some fts =>
      fts.foldlM
        (fun op ft =>
          match ft.array with
          | some true => addToFieldValueArrayNil op ft.name ft.role
          | _ => setFieldValueNil op ft.name ft.role)
        op

/-- `OperationType.instance`: construct an Operation with
`status='planning'`, attach the operation type, and initialize the field
values (session wiring is outside the modelled state). -/
def operationTypeInstance (ot : OperationTypeR) (xpos ypos : Option Int) :
    Except ModelErr OperationR :=
  let op := operationInit ot.id (some "planning") xpos ypos
  let op := { op with operation_type := some ot }
  initFieldValues op

/-! ## Plan/Wire graph: `Plan.wire`, `Wire.__init__`, `Plan.all_wires` -/

/-- Locally materialized wire collections of one `FieldValue`, identified by
its process-local record id.  `none` models the relationship attribute not
being locally present (an access would go to the server); `some l` models a
locally materialized list of wire record ids. -/
structure FVWireState where
  rid : Nat
  wires_as_source : Option (List Nat)
  wires_as_dest : Option (List Nat)
deriving DecidableEq

/-- A locally constructed `Wire` object: `Wire.__init__` sets `source`,
`destination` and `active = True` and nothing else. -/
structure WireR where
  rid : Nat
  source : Nat
  destination : Nat
  active : Bool
deriving DecidableEq

/-- Local state of a plan under construction: the field values reachable
through its operations (each operation listing its field value record ids),
the wire objects created so far, and the plan's own local `wires` collection. -/
structure PlanGraph where
  fieldValues : List FVWireState
  wires : List WireR
  planWires : List Nat
  operations : List (List Nat)
deriving DecidableEq

/-- `Wire.__init__(source, destination)`: creates the wire object with
`active = True`.  It assigns only attributes of the new wire; neither endpoint
field value is modified. -/
def wireInit (g : PlanGraph) (src dst rid : Nat) : PlanGraph :=
  { g with wires := g.wires ++ [{ rid := rid, source := src, destination := dst, active := true }] }

/-- `Plan.wire(src, dest)`: create the Wire, then append it to the plan's own
`wires` collection.  (Modelled from the spec for `append_to_many`, which lives
in `pydent/base.py`, not under src/: associations are grown by appending to the
local collection.) -/
def planWire (g : PlanGraph) (src dst rid : Nat) : PlanGraph :=
  let g1 := wireInit g src dst rid
  { g1 with planWires := g1.planWires ++ [rid] }

/-- Lookup of a field value by record id. -/
def fvLookup (g : PlanGraph) (rid : Nat) : Option FVWireState :=
  g.fieldValues.find? (fun fv => fv.rid == rid)

/-- `Plan.all_wires` (the `get_wires` callback behind the plan's `wires`
relation): traverse every operation's field values and collect their
`outgoing_wires` (`wires_as_source`) and `incoming_wires` (`wires_as_dest`)
collections; an absent or empty collection contributes nothing. -/
def planAllWires (g : PlanGraph) : List Nat :=
  (g.operations.map (fun oprids =>
    (oprids.map (fun frid =>
      match fvLookup g frid with
      | none => []
      | some fv => (fv.wires_as_source.getD []) ++ (fv.wires_as_dest.getD []))).flatten)).flatten

/-! ## Plan submission -/

/-- A `Plan`, restricted to the attributes the submission claim touches:
`Plan.__init__` leaves `id = None` until the server assigns one. -/
structure PlanR where
  id : Option Int
  name : String
  status : String
deriving DecidableEq

/-- Extraction of the server-issued plan id from a response body. -/
def jsonPlanId : Json → Option Int
  | .obj kvs =>
    match kvs.find? (fun kv => kv.1 == "id") with
    | some (_, Json.num n) => some n
    | _ => none
  | _ => none

/-- Modelled from the spec: `Plan.submit` delegates to
`session.utils.submit_plan` and the session-interface module is not under
src/.  Spec section 4.3: serialize the plan to JSON and POST it through the
transport; a response containing `errors` aborts with a descriptive failure
(the transport's `_request_to_json` raises `TridentRequestError`, which
propagates, leaving the plan untouched); success assigns the server-issued
Plan id.  `dump` is the plan serializer, `userId`/`budgetId` the submission
parameters (carried in the request body by the server API). -/
def planSubmit (server : String → String → Json → HttpResultR) (http : AqHTTPR)
    (plan : PlanR) (dump : PlanR → Json) (_userId _budgetId : Int) :
    PlanR × AqHTTPR × Except TridentExc Json :=
  let (http1, _, res) := requestStep server http "post" "plans.json" (some (dump plan)) false
  match res with
  | .error e => (plan, http1, .error e)
  | .ok j => ({ plan with id := jsonPlanId j }, http1, .ok j)

/-! ## Concrete instances used by witnesses and counterexamples -/

/-- Map that multiplies every element by ten; a concrete worker function for
the parallel-fetch theorems. -/
def timesTen (l : List Nat) : List Nat := l.map (fun x => x * 10)

/-- A set-cookie header with a well-formed remember token part. -/
def c8Header : PyStr := ("remember_token=xyz; path=/").data

/-- An HTTP exchange whose body is not parseable as JSON. -/
def c4NotJson : HttpResultR :=
  { parsed := none, status_code := 500, reason := "ERR", request_body := "" }

/-- A transport whose server always answers with an empty JSON object. -/
def serverOkEmpty : String → String → Json → HttpResultR :=
  fun _ _ _ => { parsed := some (Json.obj []), status_code := 200, reason := "OK",
                 request_body := "" }

/-- A transport whose server always answers with an error-flagged body. -/
def serverErrors : String → String → Json → HttpResultR :=
  fun _ _ _ => { parsed := some (Json.obj [("errors", Json.arr [Json.str "msg"])]),
                 status_code := 200, reason := "OK", request_body := "" }

/-- A fresh `AqHTTP` state with an empty request history. -/
def httpEmpty : AqHTTPR := { aquarium_url := "http://aquarium", request_history := [] }

/-- A locally constructed plan: `Plan.__init__` leaves `id = None`. -/
def planFresh : PlanR := { id := none, name := "MyPlan", status := "planning" }

/-- A concrete plan serializer producing a null-free body. -/
def dumpNamed : PlanR → Json := fun p => Json.obj [("name", Json.str p.name)]

/-- The field type of the claimed `initialize_field_value` example:
`{id:5, name:"Plasmid", role:"input", allowable_field_types:[{id:1}]}`. -/
def c9FieldType : FieldTypeR :=
  { id := some 5, name := some "Plasmid", role := some "input", ftype := none,
    array := none, required := none, routing := none, parent_id := none,
    parent_class := none,
    allowable_field_types :=
      some [{ id := some 1, sample_type_id := none, object_type_id := none }] }

/-- The field value the source produces for `c9FieldType` (no parent set). -/
def c9FieldValue : FieldValueR :=
  { id := none, name := some "Plasmid", role := some "input", column := none,
    row := none, parent_class := none, parent_id := none,
    field_type := some c9FieldType, field_type_id := some 5,
    allowable_field_type :=
      some { id := some 1, sample_type_id := none, object_type_id := none },
    allowable_field_type_id := some 1,
    value := none, sample := none, child_sample_id := none,
    item := none, child_item_id := none, object_type := none }

/-- An allowable field type pairing sample type 3 with container type 7. -/
def c1AFT : AllowableFieldTypeR :=
  { id := some 21, sample_type_id := some 3, object_type_id := some 7 }

/-- A field type with a single allowable field type matching sample type 3 in
container 7, for the `set_value` witness. -/
def c1FieldType : FieldTypeR :=
  { id := some 11, name := some "Fragment", role := some "input", ftype := some "sample",
    array := none, required := none, routing := none, parent_id := none,
    parent_class := none,
    allowable_field_types := some [c1AFT] }

/-- A base field value carrying `c1FieldType`, before `set_value`. -/
def c1FieldValue : FieldValueR :=
  { id := none, name := some "Fragment", role := some "input", column := none,
    row := none, parent_class := none, parent_id := none,
    field_type := some c1FieldType, field_type_id := some 11,
    allowable_field_type := none, allowable_field_type_id := none,
    value := none, sample := none, child_sample_id := none,
    item := none, child_item_id := none, object_type := none }

/-- A sample of sample type 3. -/
def c1Sample : SampleR := { id := some 6, sample_type_id := some 3 }

/-- The container of object type 7. -/
def c1Container : ObjectTypeR := { id := some 7 }

/-- The field value state produced by `_set_helper` from `c1FieldValue` with
`c1Sample` and `c1Container`. -/
def c1FieldValueAfter : FieldValueR :=
  { c1FieldValue with
    sample := some c1Sample
    child_sample_id := some 6
    object_type := some c1Container }

/-- A two-operation plan graph whose two field values have locally
materialized, empty wire collections. -/
def c3Graph : PlanGraph :=
  { fieldValues :=
      [{ rid := 1, wires_as_source := some [], wires_as_dest := some [] },
       { rid := 2, wires_as_source := some [], wires_as_dest := some [] }],
    wires := [], planWires := [], operations := [[1], [2]] }

/-- A concrete operation type with no field types, for the `instance`
witness. -/
def c10OperationType : OperationTypeR :=
  { id := some 1, name := some "OT", field_types := some [] }

/-! ## Theorems -/

theorem addToFieldValueArrayNil_preserves_status (op : OperationR)
    (name role : Option String) (op2 : OperationR)
    (h : addToFieldValueArrayNil op name role = Except.ok op2) :
    op2.status = op.status := by
  unfold addToFieldValueArrayNil at h
  split at h
  · exact absurd h (by simp)
  · cases h1 : initialize_field_value _ none with
    | error e => rw [h1] at h; simp only [bind, Except.bind] at h; exact Except.noConfusion h
    | ok fv =>
      rw [h1] at h
      simp only [bind, Except.bind] at h
      cases h2 : set_value fv none none none none with
      | error e => rw [h2] at h; simp at h
      | ok r =>
        rw [h2] at h
        simp only [Except.ok.injEq] at h
        rw [← h]

theorem setFieldValueNil_preserves_status (op : OperationR)
    (name role : Option String) (op2 : OperationR)
    (h : setFieldValueNil op name role = Except.ok op2) :
    op2.status = op.status := by
  unfold setFieldValueNil at h
  cases h0 : operationFieldValue op name role with
  | error e => rw [h0] at h; simp only [bind, Except.bind] at h; exact Except.noConfusion h
  | ok existing =>
    rw [h0] at h
    simp only [bind, Except.bind] at h
    split at h
    · exact absurd h (by simp)
    · split at h
      · exact absurd h (by simp)
      · cases existing with
        | none =>
          simp only [] at h
          cases h1 : initialize_field_value _ none with
          | error e => rw [h1] at h; simp only [bind, Except.bind] at h
                       exact Except.noConfusion h
          | ok fv =>
            rw [h1] at h
            simp only [bind, Except.bind] at h
            cases h2 : set_value (set_operation fv op.id) none none none none with
            | error e => rw [h2] at h; simp at h
            | ok r =>
              rw [h2] at h
              simp only [Except.ok.injEq] at h
              rw [← h]
        | some ifv =>
          simp only [] at h
          cases h2 : set_value ifv.2 none none none none with
          | error e => rw [h2] at h; simp at h
          | ok r =>
            rw [h2] at h
            simp only [Except.ok.injEq] at h
            rw [← h]

theorem initFieldValuesStep_preserves_status (op : OperationR) (ft : FieldTypeR)
    (op2 : OperationR)
    (h : (match ft.array with
          | some true => addToFieldValueArrayNil op ft.name ft.role
          | _ => setFieldValueNil op ft.name ft.role) = Except.ok op2) :
    op2.status = op.status := by
  split at h
  · exact addToFieldValueArrayNil_preserves_status op ft.name ft.role op2 h
  · exact setFieldValueNil_preserves_status op ft.name ft.role op2 h

theorem initFieldValuesFold_preserves_status (fts : List FieldTypeR) :
    ∀ (op op2 : OperationR),
      fts.foldlM
        (fun op ft =>
          match ft.array with
          | some true => addToFieldValueArrayNil op ft.name ft.role
          | _ => setFieldValueNil op ft.name ft.role)
        op = Except.ok op2 → op2.status = op.status := by
  induction fts with
  | nil =>
    intro op op2 h
    simp only [List.foldlM_nil, pure, Except.pure, Except.ok.injEq] at h
    rw [← h]
  | cons ft rest ih =>
    intro op op2 h
    rw [List.foldlM_cons] at h
    cases h1 : (match ft.array with
          | some true => addToFieldValueArrayNil op ft.name ft.role
          | _ => setFieldValueNil op ft.name ft.role) with
    | error e => rw [h1] at h; simp only [bind, Except.bind] at h; exact Except.noConfusion h
    | ok op1 =>
      rw [h1] at h
      simp only [bind, Except.bind] at h
      rw [ih op1 op2 h]
      exact initFieldValuesStep_preserves_status op ft op1 h1

/-- C10: `Operation.__init__` discards every non-`None` status argument:
`self.status` is assigned (to `"planning"`) only when the argument is `None`,
so an Operation constructed with an explicit status — in particular by
`OperationType.instance`, which passes `status='planning'` — has no status
attribute set by the constructor. -/
theorem operation_constructor_discards_status (otid : Option Int) (s : String)
    (x y : Option Int) (ot : OperationTypeR) (xpos ypos : Option Int) :
    (operationInit otid (some s) x y).status = none ∧
    (operationInit otid none x y).status = some "planning" ∧
    (∀ op, operationTypeInstance ot xpos ypos = Except.ok op → op.status = none) := by
  refine ⟨rfl, rfl, ?_⟩
  intro op h
  unfold operationTypeInstance initFieldValues at h
  simp only [] at h
  cases hft : ot.field_types with
  | none => rw [hft] at h; simp at h
  | some fts =>
    rw [hft] at h
    exact initFieldValuesFold_preserves_status fts _ op h

/-- Closed witness for `operation_constructor_discards_status`: instantiating
`OperationType.instance` on a field-type-free operation type produces an
operation whose `status` attribute is unset. -/
theorem operation_constructor_discards_status_witness :
    (operationInit (some 1) (some "planning") none none).status = none ∧
    operationTypeInstance c10OperationType none none = Except.ok
      { operation_type_id := some 1, x := none, y := none, parent := 0, id := none,
        status := none, field_values := none,
        operation_type := some c10OperationType } ∧
    ({ operation_type_id := some 1, x := none, y := none, parent := 0, id := none,
       status := none, field_values := none,
       operation_type := some c10OperationType : OperationR }).status = none :=
  ⟨(operation_constructor_discards_status (some 1) "planning" none none
      c10OperationType none none).1,
   rfl,
   (operation_constructor_discards_status (some 1) "planning" none none
      c10OperationType none none).2.2 _ rfl⟩

/-- C9: evaluating `FieldType.initialize_field_value` on the claimed example
(`FieldType {id:5, name:"Plasmid", role:"input", allowable_field_types:[{id:1}]}`):
the source function takes no `parent` argument, so the produced FieldValue has
`field_type_id = 5` and `allowable_field_type_id = 1` as claimed, but
`parent_id` and `parent_class` remain unset — the repository's own test calls
`initialize_field_value(parent=Sample(6))` and expects `parent_id = 6`,
`parent_class = "Sample"`. -/
theorem initialize_field_value_sets_no_parent :
    initialize_field_value c9FieldType none = Except.ok c9FieldValue ∧
    c9FieldValue.parent_id = none ∧
    c9FieldValue.parent_class = none ∧
    c9FieldValue.field_type_id = some 5 ∧
    c9FieldValue.allowable_field_type_id = some 1 :=
  ⟨rfl, rfl, rfl, rfl, rfl⟩

/-- C2: accessing a relationship attribute twice on the same record instance
issues at most one remote lookup — the second access returns the value and
cache state produced by the first unchanged, even when the server state
(`t2` versus `t1`) changed in between. -/
theorem relation_access_memoized (β : Type) (fetch : Nat → β) (t1 t2 : Nat)
    (slot : RelationCacheSlot β) :
    (accessRelation fetch t2 (accessRelation fetch t1 slot).2).1 =
      (accessRelation fetch t1 slot).1 ∧
    (accessRelation fetch t2 (accessRelation fetch t1 slot).2).2 =
      (accessRelation fetch t1 slot).2 ∧
    (accessRelation fetch t2 (accessRelation fetch t1 slot).2).2.remoteLookups ≤
      slot.remoteLookups + 1 := by
  cases h : slot.cached with
  | some v => simp [accessRelation, h]
  | none => simp [accessRelation, h]

theorem fixLoop_spec (parts : List PyStr) :
    ∀ acc : PyStr,
      (∀ cp ∈ tokenCpartsOf parts, 2 ≤ cp.length) →
      fix_remember_token.loop parts acc =
        some (match (tokenCpartsOf parts).getLast? with
              | none => acc
              | some cp => (cp.get? 1).getD []) := by
  induction parts with
  | nil =>
    intro acc h
    simp [fix_remember_token.loop, tokenCpartsOf]
  | cons p rest ih =>
    intro acc h
    cases hb : reMatchLit "remember_token".data ((pySplit '=' p).headD []) with
    | true =>
      have hcons : tokenCpartsOf (p :: rest) = pySplit '=' p :: tokenCpartsOf rest := by
        show (if reMatchLit "remember_token".data ((pySplit '=' p).headD []) = true then
                pySplit '=' p :: tokenCpartsOf rest
              else tokenCpartsOf rest) = pySplit '=' p :: tokenCpartsOf rest
        rw [hb]
        simp
      have hlen : 2 ≤ (pySplit '=' p).length := by
        apply h
        rw [hcons]
        exact List.mem_cons_self _ _
      have h1 : 1 < (pySplit '=' p).length := hlen
      have hv : (pySplit '=' p).get? 1 = some ((pySplit '=' p).get ⟨1, h1⟩) :=
        List.get?_eq_get h1
      have hrest : ∀ cp ∈ tokenCpartsOf rest, 2 ≤ cp.length := by
        intro cp hm
        apply h
        rw [hcons]
        exact List.mem_cons_of_mem _ hm
      have hloop : fix_remember_token.loop (p :: rest) acc =
          fix_remember_token.loop rest ((pySplit '=' p).get ⟨1, h1⟩) := by
        show (if reMatchLit "remember_token".data ((pySplit '=' p).headD []) = true then
                match (pySplit '=' p).get? 1 with
                | none => none
                | some v => fix_remember_token.loop rest v
              else fix_remember_token.loop rest acc) =
            fix_remember_token.loop rest ((pySplit '=' p).get ⟨1, h1⟩)
        rw [hb, hv]
        simp
      rw [hloop, ih _ hrest, hcons]
      cases hr : tokenCpartsOf rest with
      | nil =>
        simp [hv]
        rw [List.getElem?_eq_getElem h1, Option.getD_some]
      | cons q qs =>
        rw [List.getLast?_cons_cons]
        cases hu : (q :: qs).getLast? with
        | none => exact absurd (List.getLast?_eq_none_iff.mp hu) (by simp)
        | some u => rfl
    | false =>
      have hskip : tokenCpartsOf (p :: rest) = tokenCpartsOf rest := by
        show (if reMatchLit "remember_token".data ((pySplit '=' p).headD []) = true then
                pySplit '=' p :: tokenCpartsOf rest
              else tokenCpartsOf rest) = tokenCpartsOf rest
        rw [hb]
        simp
      have hrest : ∀ cp ∈ tokenCpartsOf rest, 2 ≤ cp.length := by
        intro cp hm
        apply h
        rw [hskip]
        exact hm
      have hloop : fix_remember_token.loop (p :: rest) acc =
          fix_remember_token.loop rest acc := by
        show (if reMatchLit "remember_token".data ((pySplit '=' p).headD []) = true then
                match (pySplit '=' p).get? 1 with
                | none => none
                | some v => fix_remember_token.loop rest v
              else fix_remember_token.loop rest acc) =
            fix_remember_token.loop rest acc
        rw [hb]
        simp
      rw [hloop, ih acc hrest, hskip]

/-- C8 (amended): for every set-cookie header whose parts with a
`remember_token`-matching key all contain an `=`, `fix_remember_token` returns
`"remember_token=" ++ v ++ "; " ++ header`, where `v` is the value of the last
matching part (the empty string when no part matches).  A matching part
without `=` instead raises `IndexError` (the `none` case refuting the
unconditional claim). -/
theorem fix_remember_token_reassembles (header : PyStr)
    (h : ∀ cp ∈ rememberTokenParts header, 2 ≤ cp.length) :
    fix_remember_token header =
      some ("remember_token=".data ++ lastRememberTokenValue header ++ "; ".data ++ header) := by
  unfold rememberTokenParts at h
  unfold fix_remember_token
  rw [fixLoop_spec (pySplit ';' header) [] h]
  unfold lastRememberTokenValue rememberTokenParts
  cases hL : (tokenCpartsOf (pySplit ';' header)).getLast? with
  | none => simp [hL]
  | some cp => simp [hL]

/-- Closed witness for `fix_remember_token_reassembles` on a concrete header. -/
theorem fix_remember_token_reassembles_witness :
    fix_remember_token c8Header =
      some ("remember_token=".data ++ lastRememberTokenValue c8Header ++ "; ".data ++ c8Header) :=
  fix_remember_token_reassembles c8Header (by decide)

/-- C8 counterexample: on the header `"remember_token"` (a matching part with
no `=`), `fix_remember_token` raises `IndexError` (`cparts[1]` out of range)
and returns no string at all, refuting the claim that every header is
re-assembled. -/
theorem fix_remember_token_counterexample :
    fix_remember_token ("remember_token".data) = none := by decide

theorem request_to_json_not_incomplete (r : HttpResultR) (msg : String) :
    request_to_json r ≠ Except.error (TridentExc.jsonDataIncomplete msg) := by
  unfold request_to_json
  cases r.parsed with
  | none => simp
  | some j =>
    cases hj : pyInJson "errors" j <;> simp [hj]

theorem requestCore_fresh (server : String → String → Json → HttpResultR)
    (self : AqHTTPR) (method path : String) (jsonArg : Option Json) :
    requestCore server self method path jsonArg false =
      ({ self with request_history :=
          ((pyPathJoin self.aquarium_url path, method, jsonArg.getD (Json.obj [])),
           server method (pyPathJoin self.aquarium_url path) (jsonArg.getD (Json.obj []))) ::
          self.request_history },
       1,
       request_to_json (server method (pyPathJoin self.aquarium_url path)
         (jsonArg.getD (Json.obj [])))) := rfl

theorem requestCore_hist_hit (server : String → String → Json → HttpResultR)
    (self : AqHTTPR) (method path : String) (jsonArg : Option Json) (r : HttpResultR)
    (hr : histLookup self.request_history
      (pyPathJoin self.aquarium_url path, method, jsonArg.getD (Json.obj [])) = some r) :
    requestCore server self method path jsonArg true = (self, 0, request_to_json r) := by
  unfold requestCore
  dsimp only
  rw [hr]
  rfl

theorem requestCore_hist_miss (server : String → String → Json → HttpResultR)
    (self : AqHTTPR) (method path : String) (jsonArg : Option Json)
    (hr : histLookup self.request_history
      (pyPathJoin self.aquarium_url path, method, jsonArg.getD (Json.obj [])) = none) :
    requestCore server self method path jsonArg true =
      ({ self with request_history :=
          ((pyPathJoin self.aquarium_url path, method, jsonArg.getD (Json.obj [])),
           server method (pyPathJoin self.aquarium_url path) (jsonArg.getD (Json.obj []))) ::
          self.request_history },
       1,
       request_to_json (server method (pyPathJoin self.aquarium_url path)
         (jsonArg.getD (Json.obj [])))) := by
  unfold requestCore
  dsimp only
  rw [hr]
  rfl

theorem requestCore_not_incomplete (server : String → String → Json → HttpResultR)
    (self : AqHTTPR) (method path : String) (jsonArg : Option Json) (hist_ok : Bool)
    (msg : String) :
    (requestCore server self method path jsonArg hist_ok).2.2 ≠
      Except.error (TridentExc.jsonDataIncomplete msg) := by
  unfold requestCore
  dsimp only
  split
  · exact request_to_json_not_incomplete _ msg
  · exact request_to_json_not_incomplete _ msg

theorem requestStep_guard_ok (server : String → String → Json → HttpResultR)
    (self : AqHTTPR) (method path : String) (jsonArg : Option Json) (hist_ok : Bool)
    (hguard : ∀ j, jsonArg = some j → disallow_null_in_json j = Except.ok ()) :
    requestStep server self method path jsonArg hist_ok =
      requestCore server self method path jsonArg hist_ok := by
  cases jsonArg with
  | none => rfl
  | some j =>
    unfold requestStep
    dsimp only
    rw [hguard j rfl]

/-- C6: a request whose JSON body maps some key to `null` raises
`TridentJSONDataIncomplete` before any HTTP request is issued — the state is
returned unchanged with zero HTTP calls performed — while a body with no
`null` values passes the check (the request proceeds to `requestCore`, which
never raises an incomplete-data error). -/
theorem request_null_body_guard (server : String → String → Json → HttpResultR)
    (self : AqHTTPR) (method path : String) (kvs : List (String × Json))
    (hist_ok : Bool) :
    (kvs.any (fun kv => kv.2.isNull) = true →
      requestStep server self method path (some (Json.obj kvs)) hist_ok =
        (self, 0,
         Except.error (TridentExc.jsonDataIncomplete "JSON data contains a null value."))) ∧
    (kvs.any (fun kv => kv.2.isNull) = false →
      requestStep server self method path (some (Json.obj kvs)) hist_ok =
        requestCore server self method path (some (Json.obj kvs)) hist_ok ∧
      ∀ msg, (requestStep server self method path (some (Json.obj kvs)) hist_ok).2.2 ≠
        Except.error (TridentExc.jsonDataIncomplete msg)) := by
  constructor
  · intro hnull
    have herr : disallow_null_in_json (Json.obj kvs) =
        Except.error (TridentExc.jsonDataIncomplete "JSON data contains a null value.") := by
      unfold disallow_null_in_json
      dsimp only
      rw [hnull]
      rfl
    unfold requestStep
    dsimp only
    rw [herr]
  · intro hnone
    have hok : disallow_null_in_json (Json.obj kvs) = Except.ok () := by
      unfold disallow_null_in_json
      dsimp only
      rw [hnone]
      rfl
    have hstep : requestStep server self method path (some (Json.obj kvs)) hist_ok =
        requestCore server self method path (some (Json.obj kvs)) hist_ok := by
      unfold requestStep
      dsimp only
      rw [hok]
    refine ⟨hstep, ?_⟩
    intro msg
    rw [hstep]
    exact requestCore_not_incomplete server self method path _ hist_ok msg

/-- Closed witness for `request_null_body_guard`: a body with a null value is
rejected with the history untouched and no call performed, and a null-free
body passes the check. -/
theorem request_null_body_guard_witness :
    (requestStep serverOkEmpty httpEmpty "post" "plans.json"
        (some (Json.obj [("x", Json.null)])) false =
      (httpEmpty, 0,
       Except.error (TridentExc.jsonDataIncomplete "JSON data contains a null value."))) ∧
    (requestStep serverOkEmpty httpEmpty "post" "plans.json"
        (some (Json.obj [("x", Json.num 1)])) false =
      requestCore serverOkEmpty httpEmpty "post" "plans.json"
        (some (Json.obj [("x", Json.num 1)])) false) :=
  ⟨(request_null_body_guard serverOkEmpty httpEmpty "post" "plans.json"
      [("x", Json.null)] false).1 rfl,
   ((request_null_body_guard serverOkEmpty httpEmpty "post" "plans.json"
      [("x", Json.num 1)] false).2 rfl).1⟩

/-- C7: for a request (whose body passes the null check) with key
`(url, method, body)`: with `get_from_history_ok = false` an HTTP call is
always performed — even if the history holds the key — and the fresh response
is stored under the key; with `get_from_history_ok = true` and a stored
response for the key, that response is returned with no HTTP call and the
history unchanged; with `get_from_history_ok = true` and a missing key the
request is performed and stored. -/
theorem request_history_semantics (server : String → String → Json → HttpResultR)
    (self : AqHTTPR) (method path : String) (jsonArg : Option Json)
    (hguard : ∀ j, jsonArg = some j → disallow_null_in_json j = Except.ok ()) :
    (requestStep server self method path jsonArg false =
      ({ self with request_history :=
          ((pyPathJoin self.aquarium_url path, method, jsonArg.getD (Json.obj [])),
           server method (pyPathJoin self.aquarium_url path) (jsonArg.getD (Json.obj []))) ::
          self.request_history },
       1,
       request_to_json (server method (pyPathJoin self.aquarium_url path)
         (jsonArg.getD (Json.obj []))))) ∧
    (∀ r, histLookup self.request_history
        (pyPathJoin self.aquarium_url path, method, jsonArg.getD (Json.obj [])) = some r →
      requestStep server self method path jsonArg true = (self, 0, request_to_json r)) ∧
    (histLookup self.request_history
        (pyPathJoin self.aquarium_url path, method, jsonArg.getD (Json.obj [])) = none →
      requestStep server self method path jsonArg true =
        ({ self with request_history :=
            ((pyPathJoin self.aquarium_url path, method, jsonArg.getD (Json.obj [])),
             server method (pyPathJoin self.aquarium_url path) (jsonArg.getD (Json.obj []))) ::
            self.request_history },
         1,
         request_to_json (server method (pyPathJoin self.aquarium_url path)
           (jsonArg.getD (Json.obj []))))) := by
  refine ⟨?_, ?_, ?_⟩
  · rw [requestStep_guard_ok server self method path jsonArg false hguard]
    exact requestCore_fresh server self method path jsonArg
  · intro r hr
    rw [requestStep_guard_ok server self method path jsonArg true hguard]
    exact requestCore_hist_hit server self method path jsonArg r hr
  · intro hr
    rw [requestStep_guard_ok server self method path jsonArg true hguard]
    exact requestCore_hist_miss server self method path jsonArg hr

/-- Closed witness for `request_history_semantics`: a fresh request with
`get_from_history_ok = false` performs the call and stores its response. -/
theorem request_history_semantics_witness :
    requestStep serverOkEmpty httpEmpty "get" "samples.json" none false =
      ({ httpEmpty with request_history :=
          ((pyPathJoin httpEmpty.aquarium_url "samples.json", "get",
            (none : Option Json).getD (Json.obj [])),
           serverOkEmpty "get" (pyPathJoin httpEmpty.aquarium_url "samples.json")
             ((none : Option Json).getD (Json.obj []))) ::
          httpEmpty.request_history },
       1,
       request_to_json (serverOkEmpty "get" (pyPathJoin httpEmpty.aquarium_url "samples.json")
         ((none : Option Json).getD (Json.obj [])))) :=
  (request_history_semantics serverOkEmpty httpEmpty "get" "samples.json" none
    (fun _ h => Option.noConfusion h)).1

/-- C4: a response body that is not parseable as JSON, or whose parsed JSON
object contains an `errors` key, makes the transport raise
`TridentRequestError` and return no JSON value; consequently submitting a plan
whose server response contains an `errors` key raises the request error and
returns the plan unchanged (its local id stays unset). -/
theorem transport_error_flagged (result : HttpResultR) (j : Json)
    (server : String → String → Json → HttpResultR) (http : AqHTTPR) (plan : PlanR)
    (dump : PlanR → Json) (uid bid : Int) (jresp : Json) :
    (result.parsed = none →
      request_to_json result =
        Except.error (TridentExc.requestError "Response is not JSON formatted.")) ∧
    (result.parsed = some j → pyInJson "errors" j = true →
      request_to_json result =
        Except.error (TridentExc.requestError "error-flagged response")) ∧
    (disallow_null_in_json (dump plan) = Except.ok () →
     (server "post" (pyPathJoin http.aquarium_url "plans.json") (dump plan)).parsed = some jresp →
     pyInJson "errors" jresp = true →
     planSubmit server http plan dump uid bid =
       (plan,
        { http with request_history :=
            ((pyPathJoin http.aquarium_url "plans.json", "post", dump plan),
             server "post" (pyPathJoin http.aquarium_url "plans.json") (dump plan)) ::
            http.request_history },
        Except.error (TridentExc.requestError "error-flagged response"))) := by
  refine ⟨?_, ?_, ?_⟩
  · intro hn
    unfold request_to_json
    rw [hn]
  · intro hs he
    unfold request_to_json
    rw [hs]
    dsimp only
    rw [he]
    rfl
  · intro hnull hresp herr
    have hjson : request_to_json (server "post" (pyPathJoin http.aquarium_url "plans.json")
        (dump plan)) = Except.error (TridentExc.requestError "error-flagged response") := by
      unfold request_to_json
      rw [hresp]
      dsimp only
      rw [herr]
      rfl
    have hreq : requestStep server http "post" "plans.json" (some (dump plan)) false =
        ({ http with request_history :=
            ((pyPathJoin http.aquarium_url "plans.json", "post", dump plan),
             server "post" (pyPathJoin http.aquarium_url "plans.json") (dump plan)) ::
            http.request_history },
         1, Except.error (TridentExc.requestError "error-flagged response")) := by
      rw [requestStep_guard_ok server http "post" "plans.json" (some (dump plan)) false
          (fun k hk => by rw [← Option.some.injEq] at hk; cases hk; exact hnull),
        requestCore_fresh]
      simp only [Option.getD_some]
      rw [hjson]
    unfold planSubmit
    rw [hreq]

/-- Closed witness for `transport_error_flagged`: submitting a fresh plan
against a server that answers with an `errors`-flagged body yields the request
error and leaves the plan (and its unset id) unchanged. -/
theorem transport_error_flagged_witness :
    planSubmit serverErrors httpEmpty planFresh dumpNamed 1 1 =
      (planFresh,
       { httpEmpty with request_history :=
           ((pyPathJoin httpEmpty.aquarium_url "plans.json", "post", dumpNamed planFresh),
            serverErrors "post" (pyPathJoin httpEmpty.aquarium_url "plans.json")
              (dumpNamed planFresh)) ::
           httpEmpty.request_history },
       Except.error (TridentExc.requestError "error-flagged response")) ∧
    planFresh.id = none :=
  ⟨(transport_error_flagged c4NotJson (Json.obj []) serverErrors httpEmpty planFresh
      dumpNamed 1 1 (Json.obj [("errors", Json.arr [Json.str "msg"])])).2.2 rfl rfl rfl,
   rfl⟩

theorem perm_flatten {α : Type} {l1 l2 : List (List α)} (h : List.Perm l1 l2) :
    List.Perm l1.flatten l2.flatten := by
  induction h with
  | nil => exact List.Perm.refl _
  | cons x _ ih => simpa using ih.append_left x
  | swap x y l =>
    simp only [List.flatten_cons, ← List.append_assoc]
    exact (List.perm_append_comm).append_right _
  | trans _ _ ih1 ih2 => exact ih1.trans ih2

/-- C5 (amended): the parallel-fetch wrapper returns the results of applying
the function along the worker completion order — a permutation of the
input-order results; the result list matches input order exactly when the
workers complete in submission order (the code collects `as_completed`
futures, so input order is not otherwise guaranteed). -/
theorem make_async_completion_order {α β : Type} (f : List α → List β) (data : List α)
    (n : Nat) (chunks completed : List (List α))
    (hch : chunkify data n = some chunks)
    (hperm : List.Perm completed chunks) :
    make_async_run n f data completed = some ((completed.map f).flatten) ∧
    List.Perm ((completed.map f).flatten) ((chunks.map f).flatten) ∧
    (completed = chunks →
      make_async_run n f data completed = some ((chunks.map f).flatten)) := by
  refine ⟨?_, ?_, ?_⟩
  · unfold make_async_run
    rw [hch]
    rfl
  · exact perm_flatten (hperm.map f)
  · intro he
    subst he
    unfold make_async_run
    rw [hch]
    rfl

/-- Closed witness for `make_async_completion_order` at chunk size 1 over
`[1, 2]` with identity completion order. -/
theorem make_async_completion_order_witness :
    make_async_run 1 timesTen [1, 2] [[1], [2]] = some [10, 20] :=
  (make_async_completion_order timesTen [1, 2] 1 [[1], [2]] [[1], [2]]
    (by decide) (List.Perm.refl _)).1

/-- C5 counterexample: with chunk size 1 over `[1, 2]` and the valid completion
order `[[2], [1]]` (a permutation of the chunks `[[1], [2]]`), the returned
list is `[20, 10]`: its element 0 is the function applied to chunk 1, not
chunk 0, refuting order preservation. -/
theorem make_async_counterexample :
    chunkify [1, 2] 1 = some [[1], [2]] ∧
    List.Perm [[2], [1]] ([[1], [2]] : List (List Nat)) ∧
    make_async_run 1 timesTen [1, 2] [[2], [1]] = some [20, 10] ∧
    (([[1], [2]] : List (List Nat)).map timesTen).flatten = [10, 20] ∧
    ([20, 10] : List Nat) ≠ [10, 20] := by decide

/-- C3 (amended): `Plan.wire(src, dest)` creates exactly one Wire — with
`source = src`, `destination = dest`, `active = true` — and appends it to the
plan's local wires collection; but `Wire.__init__` does not modify either
endpoint FieldValue, so the derived `all_wires` traversal (which reads only
the FieldValues' outgoing/incoming collections) is unchanged and does not
contain the fresh wire. -/
theorem plan_wire_links_no_field_value (g : PlanGraph) (src dst rid : Nat)
    (hfresh : rid ∉ planAllWires g) :
    (planWire g src dst rid).planWires = g.planWires ++ [rid] ∧
    (planWire g src dst rid).wires =
      g.wires ++ [{ rid := rid, source := src, destination := dst, active := true }] ∧
    (planWire g src dst rid).fieldValues = g.fieldValues ∧
    planAllWires (planWire g src dst rid) = planAllWires g ∧
    rid ∉ planAllWires (planWire g src dst rid) :=
  ⟨rfl, rfl, rfl, rfl, hfresh⟩

/-- Closed witness for `plan_wire_links_no_field_value` on the two-operation
graph. -/
theorem plan_wire_links_no_field_value_witness :
    (planWire c3Graph 1 2 10).planWires = c3Graph.planWires ++ [10] ∧
    (planWire c3Graph 1 2 10).wires =
      c3Graph.wires ++ [{ rid := 10, source := 1, destination := 2, active := true }] ∧
    (planWire c3Graph 1 2 10).fieldValues = c3Graph.fieldValues ∧
    planAllWires (planWire c3Graph 1 2 10) = planAllWires c3Graph ∧
    10 ∉ planAllWires (planWire c3Graph 1 2 10) :=
  plan_wire_links_no_field_value c3Graph 1 2 10 (by decide)

/-- C3 counterexample: wiring field value 1 to field value 2 on the
two-operation graph leaves the source's outgoing-wires and the destination's
incoming-wires collections empty and the derived `all_wires` set empty — the
created wire (rid 10, present once in the plan's local collection) is
discoverable from none of them, refuting the claimed linking side effect. -/
theorem plan_wire_counterexample :
    (fvLookup (planWire c3Graph 1 2 10) 1).map (fun fv => fv.wires_as_source) =
      some (some []) ∧
    (fvLookup (planWire c3Graph 1 2 10) 2).map (fun fv => fv.wires_as_dest) =
      some (some []) ∧
    planAllWires (planWire c3Graph 1 2 10) = [] ∧
    (planWire c3Graph 1 2 10).planWires = [10] := by decide

theorem filters_compose (fv : FieldValueR) (afts : List AllowableFieldTypeR) :
    (match fv.object_type with
     | some ot =>
       filter_by_object_type_id
         (match fv.sample with
          | some s => filter_by_sample_type_id afts s.sample_type_id
          | none => afts) ot.id
     | none =>
       match fv.sample with
       | some s => filter_by_sample_type_id afts s.sample_type_id
       | none => afts) = matchingAFTs fv afts := by
  unfold matchingAFTs filter_by_sample_type_id filter_by_object_type_id
  cases fv.sample with
  | none =>
    cases fv.object_type with
    | none => simp
    | some ot => simp
  | some s =>
    cases fv.object_type with
    | none => simp
    | some ot =>
      dsimp only
      rw [List.filter_filter]
      exact List.filter_congr (fun a _ => Bool.and_comm _ _)

/-- C1: when `set_value` is passed a sample, container or item, the field
type's allowable field types are filtered by the (possibly item-derived)
sample's `sample_type_id` and the object type's id; exactly one remaining
match is auto-assigned (`allowable_field_type` and `allowable_field_type_id`
set via `set_allowable_field_type`), zero remaining matches raise
`AquariumModelError`, and more than one match emits a non-fatal warning (the
`true` flag) with no assignment (the field value is returned unchanged). -/
theorem set_value_aft_trichotomy (fv0 fv : FieldValueR) (value : Option String)
    (sample : Option SampleR) (container : Option ObjectTypeR) (item : Option ItemR)
    (ft : FieldTypeR) (afts : List AllowableFieldTypeR)
    (hpass : (sample.isSome || container.isSome || item.isSome) = true)
    (hhelp : set_helper fv0 value sample container item = Except.ok fv)
    (hft : fv.field_type = some ft)
    (hafts : ft.allowable_field_types = some afts) :
    (matchingAFTs fv afts = [] →
      set_value fv0 value sample container item =
        Except.error (ModelErr.aquariumModelError "No allowable field types found")) ∧
    (∀ a, matchingAFTs fv afts = [a] →
      set_value fv0 value sample container item =
        Except.ok (set_allowable_field_type fv a, false)) ∧
    (1 < (matchingAFTs fv afts).length →
      set_value fv0 value sample container item = Except.ok (fv, true)) := by
  unfold set_value
  simp only [hhelp, bind, Except.bind]
  rw [hpass]
  simp only [if_true]
  rw [hft]
  dsimp only
  rw [hafts]
  dsimp only
  rw [filters_compose fv afts]
  refine ⟨?_, ?_, ?_⟩
  · intro h
    rw [h]
    rfl
  · intro a h
    rw [h]
    rfl
  · intro h
    have hne : (matchingAFTs fv afts).isEmpty = false := by
      cases hm : matchingAFTs fv afts with
      | nil => rw [hm] at h; simp at h
      | cons b bs => rfl
    rw [hne]
    rw [if_neg Bool.false_ne_true]
    rw [if_pos h]

/-- Closed witness for `set_value_aft_trichotomy`: setting a sample of sample
type 3 and a container of object type 7 on a field value whose field type has
exactly one matching allowable field type assigns that allowable field type
with no warning. -/
theorem set_value_aft_trichotomy_witness :
    set_value c1FieldValue none (some c1Sample) (some c1Container) none =
      Except.ok (set_allowable_field_type c1FieldValueAfter c1AFT, false) :=
  (set_value_aft_trichotomy c1FieldValue c1FieldValueAfter none (some c1Sample)
    (some c1Container) none c1FieldType [c1AFT] (by rfl) (by rfl) (by rfl) (by rfl)).2.1
    c1AFT (by decide)

end Trident
